import Mathlib

/-!
Verification of the zoning report card dashboard's data-normalization layer.

The raw aggregation payload is modelled as an association list from field
names to JSON-like values (`JRecord`): a value is either a number (modelled
as an exact rational) or a non-numeric value such as a string.  The two
normalizers of the repository, `data_loader.process_aggregation_data` and
`streamlit_app.process_aggregation_data`, are embedded as total functions
returning `Option`: the Python `try`/`except` that catches any exception
and returns `None` corresponds to the `none` result, which arises exactly
when a field that participates in arithmetic holds a non-numeric value.
Python's `round` (banker's rounding, round half to even) is modelled
exactly on rationals.
-/

/-- A JSON-ish field value: a number, or a non-numeric value (modelled by a
string), which makes any arithmetic on it raise in Python. -/
inductive JValue where
  | num (q : ℚ)
  | str (s : String)
deriving DecidableEq

/-- A raw aggregation record: an association list from field names to values,
as `data_dict` in the source. -/
abbrev JRecord := List (String × JValue)

/-- Numeric coercion: arithmetic on a non-numeric value raises in Python,
modelled by `none`. -/
def toNum : JValue → Option ℚ
  | .num q => some q
  | .str _ => none

/-- All-or-nothing numeric coercion of a list of field values: `sum(values)`
in Python raises unless every element is numeric. -/
def toNums : List JValue → Option (List ℚ)
  | [] => some []
  | v :: vs =>
    match toNum v, toNums vs with
    | some q, some qs => some (q :: qs)
    | _, _ => none

/-- The helper closure `get_value(key)` of both normalizers:
`data_dict.get(key, 0)`, i.e. look the key up and default to `0`. -/
def get_value (data_dict : JRecord) (key : String) : JValue :=
  (data_dict.lookup key).getD (JValue.num 0)

/-- Python's `round` to an integer: round half to even (banker's rounding). -/
def roundHalfEven (x : ℚ) : ℤ :=
  if x - ⌊x⌋ < 1 / 2 then ⌊x⌋
  else if 1 / 2 < x - ⌊x⌋ then ⌊x⌋ + 1
  else if ⌊x⌋ % 2 = 0 then ⌊x⌋ else ⌊x⌋ + 1

/-- Python's `round(x, p)`: round to `p` decimal digits, half to even. -/
def pyRound (x : ℚ) (p : ℕ) : ℚ :=
  (roundHalfEven (x * 10 ^ p) : ℚ) / 10 ^ p

/-- The percentage computation every category group performs:
`total = sum(values)`, then per item
`round(v / total * 100, p) if total > 0 else 0`. -/
def pctList (values : List ℚ) (p : ℕ) : List ℚ :=
  let total := values.sum
  values.map (fun v => if 0 < total then pyRound (v / total * 100) p else 0)

/-- Extraction of one category group's numeric values from the raw record:
the listed keys are read through `get_value` and all must be numeric. -/
def groupValues (g : String → JValue) (keys : List String) : Option (List ℚ) :=
  toNums (keys.map g)

/-- A raw record extended so that every listed key that is absent is instead
present and mapped to the number `0` (used to state the missing-key claim). -/
def extendZero (d : JRecord) (ks : List String) : JRecord :=
  d ++ (ks.filter (fun k => (d.lookup k).isNone)).map (fun k => (k, JValue.num 0))

namespace DataLoader

/-- The 15 income-bracket keys read by `data_loader.process_aggregation_data`. -/
def incomeKeys : List String :=
  ["marketUnits050Sum", "marketUnits51100Sum", "marketUnits101150Sum",
   "marketUnits151200Sum", "marketUnits201250Sum", "marketUnits251Sum",
   "affordableUnits30Sum", "affordableUnits50Sum", "affordableUnits60Sum",
   "affordableUnits80Sum", "affordableUnits100Sum", "affordableUnits120Sum",
   "affordableUnits140Sum", "affordableUnits150Sum", "affordableUnits170Sum"]

/-- The 8 bedroom-count keys. -/
def bedroomKeys : List String :=
  ["countMarket0BrSum", "countMarket1BrSum", "countMarket2BrSum",
   "countMarket3BrSum", "countAffordable0BrSum", "countAffordable1BrSum",
   "countAffordable2BrSum", "countAffordable3BrSum"]

/-- The 5 parking keys. -/
def parkingKeys : List String :=
  ["surfaceParkingStallsSum", "garageParkingStallsSum", "podiumParkingStallsSum",
   "structuredParkingStallsSum", "undergroundParkingStallsSum"]

/-- The 5 density (DUA) keys. -/
def densityKeys : List String :=
  ["acresDuaLt10Sum", "acresDua1025Sum", "acresDua2550Sum",
   "acresDua5075Sum", "acresDuaGt75Sum"]

/-- The 6 FAR (bulk) keys. -/
def farKeys : List String :=
  ["acresFarLtpt2Sum", "acresFarPt2Pt6Sum", "acresFarPt61Sum",
   "acresFar12Sum", "acresFar24Sum", "acresFarGt4Sum"]

/-- The 4 units-by-type keys. -/
def unitTypeKeys : List String :=
  ["unitsByTypeSFSum", "unitsByTypeTHSum", "unitsByTypePLEXSum",
   "unitsByTypeMFSum"]

/-- The 5 TCAC resource-level keys (including the Not TCAC bucket). -/
def tcacKeys : List String :=
  ["unitsByTcacNotTcacSum", "unitsByTcacLowResourceSum",
   "unitsByTcacModerateResourceSum", "unitsByTcacHighResourceSum",
   "unitsByTcacHighestResourceSum"]

/-- The location passthrough mapping: internal key to raw field key. -/
def locationKeys : List (String × String) :=
  [("fault_zone", "unitsFaultZoneSum"),
   ("historic_district", "unitsHistoricDistrictSum"),
   ("urbanized", "unitsUrbanizedSum"),
   ("walkable", "unitsWalkableSum"),
   ("near_transit", "unitsNearTransitSum"),
   ("wui", "unitsWuiSum")]

/-- The processed scenario record returned by
`data_loader.process_aggregation_data`.  Fields that never participate in
arithmetic (`location_data` values, `affordable_units`, `net_units`) keep
their raw `JValue`. -/
structure ScenarioRecord where
  scenario_name : String
  income_values : List ℚ
  income_pct : List ℚ
  bedroom_values : List ℚ
  bedroom_pct : List ℚ
  parking_values : List ℚ
  parking_pct : List ℚ
  density_values : List ℚ
  density_pct : List ℚ
  far_values : List ℚ
  far_pct : List ℚ
  unit_type_values : List ℚ
  unit_type_pct : List ℚ
  tcac_values : List ℚ
  tcac_pct : List ℚ
  fire_risk_values : List ℚ
  fire_risk_pct : List ℚ
  location_data : List (String × JValue)
  total_units : ℚ
  affordable_units : JValue
  net_units : JValue
deriving DecidableEq

/-- The arithmetic core of `data_loader.process_aggregation_data`, applied to
the already-fetched field values.  A non-numeric value in any field that
Python would feed into `sum`, `/`, `-` or `round` raises, which the
enclosing `except` turns into `None`: here, `none`. -/
def compute (scenario_name : String)
    (ivJ bvJ pvJ dvJ fvJ uvJ tvJ : List JValue)
    (locJ : List (String × JValue)) (tuJ auJ nuJ fhJ fvhJ : JValue) :
    Option ScenarioRecord :=
  match toNums ivJ, toNums bvJ, toNums pvJ, toNums dvJ, toNums fvJ,
        toNums uvJ, toNums tvJ, toNum tuJ, toNum fhJ, toNum fvhJ with
  | some income_values, some bedroom_values, some parking_values,
    some density_values, some far_values, some unit_type_values,
    some tcac_values, some total_units, some fire_hazard_high,
    some fire_hazard_very_high =>
    let fire_hazard_none := total_units - fire_hazard_high - fire_hazard_very_high
    let fire_risk_values := [fire_hazard_none, fire_hazard_high, fire_hazard_very_high]
    some
      { scenario_name := scenario_name
        income_values := income_values.map (fun v => pyRound v 1)
        income_pct := pctList income_values 0
        bedroom_values := bedroom_values.map (fun v => pyRound v 1)
        bedroom_pct := pctList bedroom_values 0
        parking_values := parking_values.map (fun v => pyRound v 1)
        parking_pct := pctList parking_values 0
        density_values := density_values.map (fun v => pyRound v 1)
        density_pct := pctList density_values 1
        far_values := far_values.map (fun v => pyRound v 1)
        far_pct := pctList far_values 1
        unit_type_values := unit_type_values.map (fun v => pyRound v 1)
        unit_type_pct := pctList unit_type_values 1
        tcac_values := tcac_values.map (fun v => pyRound v 1)
        tcac_pct := pctList tcac_values 1
        fire_risk_values := fire_risk_values.map (fun v => pyRound v 1)
        fire_risk_pct := pctList fire_risk_values 1
        location_data := locJ
        total_units := total_units
        affordable_units := auJ
        net_units := nuJ }
  | _, _, _, _, _, _, _, _, _, _ => none

/-- `data_loader.process_aggregation_data`: all dictionary access goes through
the `get_value` closure; the body is `compute` over the fetched values. -/
def process_aggregation_data (data_dict : JRecord) (scenario_name : String) :
    Option ScenarioRecord :=
  let g := get_value data_dict
  compute scenario_name
    (incomeKeys.map g) (bedroomKeys.map g) (parkingKeys.map g)
    (densityKeys.map g) (farKeys.map g) (unitTypeKeys.map g) (tcacKeys.map g)
    (locationKeys.map (fun p => (p.1, g p.2)))
    (g "totalUnitsSum") (g "affordableUnitsSum") (g "netUnitsSum")
    (g "unitsFireHazardHighSum") (g "unitsFireHazardVeryHighSum")

/-- One dictionary read, in explicit state-passing form: the only operation
the function ever performs on its input dict is `get`, which returns the
dict unchanged. -/
def getvS (d : JRecord) (key : String) : JValue × JRecord :=
  ((d.lookup key).getD (JValue.num 0), d)

/-- Sequential reads of a list of keys, threading the dict state. -/
def getvList (d : JRecord) : List String → List JValue × JRecord
  | [] => ([], d)
  | k :: ks =>
    let (v, d1) := getvS d k
    let (vs, d2) := getvList d1 ks
    (v :: vs, d2)

/-- Sequential reads for the location passthrough pairs, threading state. -/
def getvPairs (d : JRecord) : List (String × String) → List (String × JValue) × JRecord
  | [] => ([], d)
  | p :: ps =>
    let (v, d1) := getvS d p.2
    let (vs, d2) := getvPairs d1 ps
    ((p.1, v) :: vs, d2)

/-- `data_loader.process_aggregation_data` with the dictionary threaded as
explicit state through every access, in source order; the second component
is the dictionary after the call. -/
def processST (d : JRecord) (scenario_name : String) :
    Option ScenarioRecord × JRecord :=
  let (ivJ, d1) := getvList d incomeKeys
  let (bvJ, d2) := getvList d1 bedroomKeys
  let (pvJ, d3) := getvList d2 parkingKeys
  let (dvJ, d4) := getvList d3 densityKeys
  let (fvJ, d5) := getvList d4 farKeys
  let (uvJ, d6) := getvList d5 unitTypeKeys
  let (tvJ, d7) := getvList d6 tcacKeys
  let (locJ, d8) := getvPairs d7 locationKeys
  let (tuJ, d9) := getvS d8 "totalUnitsSum"
  let (auJ, d10) := getvS d9 "affordableUnitsSum"
  let (nuJ, d11) := getvS d10 "netUnitsSum"
  let (fhJ, d12) := getvS d11 "unitsFireHazardHighSum"
  let (fvhJ, d13) := getvS d12 "unitsFireHazardVeryHighSum"
  (compute scenario_name ivJ bvJ pvJ dvJ fvJ uvJ tvJ locJ tuJ auJ nuJ fhJ fvhJ, d13)

end DataLoader

namespace StreamlitApp

/-- The 6 income-bracket keys read by
`streamlit_app.process_aggregation_data`. -/
def incomeKeys : List String :=
  ["marketUnits050Sum", "marketUnits51100Sum", "marketUnits101150Sum",
   "marketUnits151200Sum", "marketUnits201250Sum", "marketUnits251Sum"]

/-- The 4 bedroom-count keys. -/
def bedroomKeys : List String :=
  ["countMarket0BrSum", "countMarket1BrSum", "countMarket2BrSum",
   "countMarket3BrSum"]

/-- The 5 parking keys. -/
def parkingKeys : List String :=
  ["surfaceParkingStallsSum", "garageParkingStallsSum", "podiumParkingStallsSum",
   "structuredParkingStallsSum", "undergroundParkingStallsSum"]

/-- The 5 density (DUA) keys. -/
def densityKeys : List String :=
  ["acresDuaLt10Sum", "acresDua1025Sum", "acresDua2550Sum",
   "acresDua5075Sum", "acresDuaGt75Sum"]

/-- The 6 FAR (bulk) keys. -/
def farKeys : List String :=
  ["acresFarLtpt2Sum", "acresFarPt2Pt6Sum", "acresFarPt61Sum",
   "acresFar12Sum", "acresFar24Sum", "acresFarGt4Sum"]

/-- The 4 units-by-type keys. -/
def unitTypeKeys : List String :=
  ["unitsByTypeSFSum", "unitsByTypeTHSum", "unitsByTypePLEXSum",
   "unitsByTypeMFSum"]

/-- The 4 TCAC resource-level keys (no Not TCAC bucket in this variant). -/
def tcacKeys : List String :=
  ["unitsByTcacLowResourceSum", "unitsByTcacModerateResourceSum",
   "unitsByTcacHighResourceSum", "unitsByTcacHighestResourceSum"]

/-- The location passthrough mapping: internal key to raw field key. -/
def locationKeys : List (String × String) :=
  [("fault_zone", "unitsFaultZoneSum"),
   ("historic_district", "unitsHistoricDistrictSum"),
   ("urbanized", "unitsUrbanizedSum"),
   ("walkable", "unitsWalkableSum"),
   ("near_transit", "unitsNearTransitSum"),
   ("wui", "unitsWuiSum")]

/-- The processed scenario record returned by
`streamlit_app.process_aggregation_data` (no `net_units` in this variant). -/
structure ScenarioRecord where
  scenario_name : String
  income_values : List ℚ
  income_pct : List ℚ
  bedroom_values : List ℚ
  bedroom_pct : List ℚ
  parking_values : List ℚ
  parking_pct : List ℚ
  density_values : List ℚ
  density_pct : List ℚ
  far_values : List ℚ
  far_pct : List ℚ
  unit_type_values : List ℚ
  unit_type_pct : List ℚ
  tcac_values : List ℚ
  tcac_pct : List ℚ
  fire_risk_values : List ℚ
  fire_risk_pct : List ℚ
  location_data : List (String × JValue)
  total_units : ℚ
  affordable_units : JValue
deriving DecidableEq

/-- The arithmetic core of `streamlit_app.process_aggregation_data`. -/
def compute (scenario_name : String)
    (ivJ bvJ pvJ dvJ fvJ uvJ tvJ : List JValue)
    (locJ : List (String × JValue)) (tuJ auJ fhJ fvhJ : JValue) :
    Option ScenarioRecord :=
  match toNums ivJ, toNums bvJ, toNums pvJ, toNums dvJ, toNums fvJ,
        toNums uvJ, toNums tvJ, toNum tuJ, toNum fhJ, toNum fvhJ with
  | some income_values, some bedroom_values, some parking_values,
    some density_values, some far_values, some unit_type_values,
    some tcac_values, some total_units, some fhsz_high, some fhsz_very_high =>
    let fhsz_no := total_units - fhsz_high - fhsz_very_high
    let fire_risk_values := [fhsz_no, fhsz_high, fhsz_very_high]
    some
      { scenario_name := scenario_name
        income_values := income_values.map (fun v => pyRound v 1)
        income_pct := pctList income_values 0
        bedroom_values := bedroom_values.map (fun v => pyRound v 1)
        bedroom_pct := pctList bedroom_values 0
        parking_values := parking_values.map (fun v => pyRound v 1)
        parking_pct := pctList parking_values 0
        density_values := density_values.map (fun v => pyRound v 1)
        density_pct := pctList density_values 1
        far_values := far_values.map (fun v => pyRound v 1)
        far_pct := pctList far_values 1
        unit_type_values := unit_type_values.map (fun v => pyRound v 1)
        unit_type_pct := pctList unit_type_values 1
        tcac_values := tcac_values.map (fun v => pyRound v 1)
        tcac_pct := pctList tcac_values 1
        fire_risk_values := fire_risk_values.map (fun v => pyRound v 1)
        fire_risk_pct := pctList fire_risk_values 1
        location_data := locJ
        total_units := total_units
        affordable_units := auJ }
  | _, _, _, _, _, _, _, _, _, _ => none

/-- `streamlit_app.process_aggregation_data`. -/
def process_aggregation_data (data_dict : JRecord) (scenario_name : String) :
    Option ScenarioRecord :=
  let g := get_value data_dict
  compute scenario_name
    (incomeKeys.map g) (bedroomKeys.map g) (parkingKeys.map g)
    (densityKeys.map g) (farKeys.map g) (unitTypeKeys.map g) (tcacKeys.map g)
    (locationKeys.map (fun p => (p.1, g p.2)))
    (g "totalUnitsSum") (g "affordableUnitsSum")
    (g "unitsFhszHighSum") (g "unitsFhszVeryhighSum")

/-- The income-bracket category labels of the dashboard. -/
def income_brackets : List String :=
  ["<=50% MFI", "51%-100% MFI", "101-150% MFI", "151-200% MFI",
   "201-250% MFI", ">251% MFI"]

/-- The bedroom-count category labels. -/
def bedroom_counts : List String :=
  ["0 bedrooms", "1 bedroom", "2 bedrooms", "3+ bedrooms"]

/-- The parking-type category labels. -/
def parking_types : List String :=
  ["Surface", "Garage", "Podium", "Structured", "Underground"]

/-- The density category labels. -/
def density_labels : List String :=
  ["<10 DUA", "11-25 DUA", "26-50 DUA", "51-75 DUA", ">75 DUA"]

/-- The FAR category labels. -/
def far_labels : List String :=
  ["<0.2 FAR", "0.2-0.6 FAR", "0.6-1 FAR", "1-2 FAR", "2-4 FAR", ">4 FAR"]

/-- The unit-type category labels. -/
def unit_types : List String := ["SF", "TH", "PLEX", "MF"]

/-- The TCAC resource-level category labels. -/
def tcac_levels : List String := ["Low", "Moderate", "High", "Highest"]

/-- The fire-risk category labels. -/
def fire_risk_levels : List String := ["None", "High", "Very High"]

/-- The scenario name assigned in the collection loop:
`f"Scenario {i+1}"` for enumeration index `i`. -/
def scenarioName (i : ℕ) : String := "Scenario " ++ toString (i + 1)

/-- One iteration's outcome of the collection loop, as an `Option`: the
scenario id must be in the API response, its data list must be non-empty,
and normalizing its first element must succeed. -/
def step (resp : String → Option (List JRecord)) (p : ℕ × String) :
    Option ScenarioRecord :=
  (resp p.2).bind fun dataList =>
    dataList.head?.bind fun raw =>
      process_aggregation_data raw (scenarioName p.1)

/-- The body of the collection loop, literally: membership test, non-empty
test, normalization, and append on success. -/
def buildBody (resp : String → Option (List JRecord))
    (acc : List ScenarioRecord) (p : ℕ × String) : List ScenarioRecord :=
  match resp p.2 with
  | some dataList =>
    match dataList with
    | raw :: _ =>
      match process_aggregation_data raw (scenarioName p.1) with
      | some rec => acc ++ [rec]
      | none => acc
    | [] => acc
  | none => acc

/-- The scenario collection builder (`all_data` loop of the dashboard):
fold the loop body over the enumerated simulation ids. -/
def buildAllData (simulation_ids : List String)
    (resp : String → Option (List JRecord)) : List ScenarioRecord :=
  simulation_ids.enum.foldl (buildBody resp) []

end StreamlitApp

/-- The record `data_loader.process_aggregation_data` produces on an empty
raw record: every field defaults to zero. -/
def zeroRecDL (n : String) : DataLoader.ScenarioRecord where
  scenario_name := n
  income_values := List.replicate 15 0
  income_pct := List.replicate 15 0
  bedroom_values := List.replicate 8 0
  bedroom_pct := List.replicate 8 0
  parking_values := List.replicate 5 0
  parking_pct := List.replicate 5 0
  density_values := List.replicate 5 0
  density_pct := List.replicate 5 0
  far_values := List.replicate 6 0
  far_pct := List.replicate 6 0
  unit_type_values := List.replicate 4 0
  unit_type_pct := List.replicate 4 0
  tcac_values := List.replicate 5 0
  tcac_pct := List.replicate 5 0
  fire_risk_values := [0, 0, 0]
  fire_risk_pct := [0, 0, 0]
  location_data :=
    [("fault_zone", .num 0), ("historic_district", .num 0), ("urbanized", .num 0),
     ("walkable", .num 0), ("near_transit", .num 0), ("wui", .num 0)]
  total_units := 0
  affordable_units := .num 0
  net_units := .num 0

/-- The record `streamlit_app.process_aggregation_data` produces on an empty
raw record. -/
def zeroRecSA (n : String) : StreamlitApp.ScenarioRecord where
  scenario_name := n
  income_values := List.replicate 6 0
  income_pct := List.replicate 6 0
  bedroom_values := List.replicate 4 0
  bedroom_pct := List.replicate 4 0
  parking_values := List.replicate 5 0
  parking_pct := List.replicate 5 0
  density_values := List.replicate 5 0
  density_pct := List.replicate 5 0
  far_values := List.replicate 6 0
  far_pct := List.replicate 6 0
  unit_type_values := List.replicate 4 0
  unit_type_pct := List.replicate 4 0
  tcac_values := List.replicate 4 0
  tcac_pct := List.replicate 4 0
  fire_risk_values := [0, 0, 0]
  fire_risk_pct := [0, 0, 0]
  location_data :=
    [("fault_zone", .num 0), ("historic_district", .num 0), ("urbanized", .num 0),
     ("walkable", .num 0), ("near_transit", .num 0), ("wui", .num 0)]
  total_units := 0
  affordable_units := .num 0

/-- Raw record with a 30/70 income split in the first two market buckets. -/
def dC2 : JRecord :=
  [("marketUnits050Sum", .num 30), ("marketUnits51100Sum", .num 70)]

/-- The data_loader record normalized from `dC2`. -/
def recC2 : DataLoader.ScenarioRecord :=
  { zeroRecDL "w" with
    income_values := [30, 70, 0, 0, 0, 0, 0, 0, 0, 0, 0, 0, 0, 0, 0]
    income_pct := [30, 70, 0, 0, 0, 0, 0, 0, 0, 0, 0, 0, 0, 0, 0] }

/-- Raw record with fractional fire-hazard counts (0.04 units each). -/
def dC4 : JRecord :=
  [("totalUnitsSum", .num 10), ("unitsFireHazardHighSum", .num (1 / 25)),
   ("unitsFireHazardVeryHighSum", .num (1 / 25))]

/-- The fire-risk example of the specification, data_loader field names. -/
def dC4dl : JRecord :=
  [("totalUnitsSum", .num 50), ("unitsFireHazardHighSum", .num 10),
   ("unitsFireHazardVeryHighSum", .num 5)]

/-- The fire-risk example of the specification, streamlit_app field names. -/
def dC4sa : JRecord :=
  [("totalUnitsSum", .num 50), ("unitsFhszHighSum", .num 10),
   ("unitsFhszVeryhighSum", .num 5)]

/-- The data_loader record normalized from `dC4dl`. -/
def recC4dl : DataLoader.ScenarioRecord :=
  { zeroRecDL "w" with
    fire_risk_values := [35, 10, 5], fire_risk_pct := [70, 20, 10]
    total_units := 50 }

/-- The streamlit_app record normalized from `dC4sa`. -/
def recC4sa : StreamlitApp.ScenarioRecord :=
  { zeroRecSA "w" with
    fire_risk_values := [35, 10, 5], fire_risk_pct := [70, 20, 10]
    total_units := 50 }

/-- Raw record with a 1/2 unit-type split, exposing fractional percentages. -/
def dC6 : JRecord :=
  [("unitsByTypeSFSum", .num 1), ("unitsByTypeTHSum", .num 2)]

/-- The data_loader record normalized from `dC6`: the unit-type percentages
carry one decimal digit. -/
def recC6 : DataLoader.ScenarioRecord :=
  { zeroRecDL "s" with
    unit_type_values := [1, 2, 0, 0]
    unit_type_pct := [333 / 10, 667 / 10, 0, 0] }

/-- The raw record of the specification's income example. -/
def dC7 : JRecord :=
  [("marketUnits050Sum", .num 30), ("marketUnits51100Sum", .num 70),
   ("totalUnitsSum", .num 100), ("affordableUnitsSum", .num 0)]

/-- A fetch response containing data for `simA` only. -/
def c8resp : String → Option (List JRecord) :=
  fun s => if s = "simA" then some [[]] else none

/-- A raw record whose first income field holds a non-numeric value:
normalizing it raises in Python and yields `None`. -/
def c9bad : JRecord := [("marketUnits050Sum", JValue.str "not a number")]

/-- A fetch response where `simA` carries a malformed record and `simB` a
well-formed one. -/
def c9resp : String → Option (List JRecord) :=
  fun s =>
    if s = "simA" then some [c9bad]
    else if s = "simB" then some [[]] else none


/-- Successful all-or-nothing coercion preserves the group's length. -/
theorem toNums_length {l : List JValue} {l' : List ℚ} (h : toNums l = some l') :
    l'.length = l.length := by
  induction l generalizing l' with
  | nil => simp [toNums] at h; simp [← h]
  | cons v vs ih =>
    simp only [toNums] at h
    rcases hv : toNum v with _ | q <;> rw [hv] at h
    · exact absurd h (by simp)
    · rcases hvs : toNums vs with _ | qs <;> rw [hvs] at h
      · exact absurd h (by simp)
      · simp only [Option.some.injEq] at h
        simp [← h, ih hvs]

/-- Mapping the constant zero yields a replicated list. -/
theorem map_zero_replicate (l : List ℚ) :
    l.map (fun _ => (0 : ℚ)) = List.replicate l.length 0 := by
  induction l with
  | nil => rfl
  | cons a t ih => simp [List.replicate, ih]

/-- If a group's raw values sum to zero, the guard makes every percentage
exactly zero. -/
theorem pctList_sum_zero {l : List ℚ} (p : ℕ) (h : l.sum = 0) :
    pctList l p = List.replicate l.length 0 := by
  simp only [pctList, h, lt_irrefl, if_false]
  exact map_zero_replicate l

/-- With a positive total the guard passes and every entry is the rounded
share of the total. -/
theorem pctList_pos_eq {l : List ℚ} (p : ℕ) (h : 0 < l.sum) :
    pctList l p = l.map (fun v => pyRound (v / l.sum * 100) p) := by
  simp only [pctList, if_pos h]

/-- Round half to even differs from its argument by at most one half. -/
theorem roundHalfEven_sub_abs (x : ℚ) : |(roundHalfEven x : ℚ) - x| ≤ 1 / 2 := by
  have h0 : (0 : ℚ) ≤ x - ⌊x⌋ := sub_nonneg.mpr (Int.floor_le x)
  have h1 : x - ⌊x⌋ < 1 := by
    have := Int.lt_floor_add_one x
    push_cast at this ⊢
    linarith
  unfold roundHalfEven
  split_ifs with h2 h3 h4
  · rw [abs_le]; constructor <;> linarith
  · rw [abs_le]; push_cast; constructor <;> linarith
  · rw [abs_le]; constructor <;> linarith
  · rw [abs_le]; push_cast; constructor <;> linarith

/-- Python's decimal rounding differs from its argument by at most half of
the last retained digit. -/
theorem pyRound_sub_abs (x : ℚ) (p : ℕ) :
    |pyRound x p - x| ≤ 1 / (2 * 10 ^ p) := by
  have h10 : (0 : ℚ) < 10 ^ p := by positivity
  have h := roundHalfEven_sub_abs (x * 10 ^ p)
  unfold pyRound
  have heq : (roundHalfEven (x * 10 ^ p) : ℚ) / 10 ^ p - x =
      ((roundHalfEven (x * 10 ^ p) : ℚ) - x * 10 ^ p) / 10 ^ p := by
    field_simp
    ring
  rw [heq, abs_div, abs_of_pos h10, div_le_iff₀ h10]
  have h2 : (1 : ℚ) / (2 * 10 ^ p) * 10 ^ p = 1 / 2 := by
    field_simp
    ring
  rw [h2]
  exact h

/-- Summing two pointwise-close maps over the same list keeps the sums
within `length * c` of each other. -/
theorem list_abs_sum_sub_le (l : List ℚ) (f g : ℚ → ℚ) (c : ℚ)
    (h : ∀ x ∈ l, |f x - g x| ≤ c) :
    |(l.map f).sum - (l.map g).sum| ≤ l.length * c := by
  induction l with
  | nil => simp
  | cons a t ih =>
    have ha := h a (by simp)
    have ht := ih (fun x hx => h x (by simp [hx]))
    simp only [List.map_cons, List.sum_cons, List.length_cons]
    have hsplit : f a + (t.map f).sum - (g a + (t.map g).sum) =
        (f a - g a) + ((t.map f).sum - (t.map g).sum) := by ring
    rw [hsplit]
    calc |(f a - g a) + ((t.map f).sum - (t.map g).sum)| ≤
          |f a - g a| + |(t.map f).sum - (t.map g).sum| := abs_add _ _
      _ ≤ c + t.length * c := add_le_add ha ht
      _ = (t.length + 1 : ℕ) * c := by push_cast; ring

/-- Distributing the share computation over a sum. -/
theorem sum_map_div_mul (l : List ℚ) (t : ℚ) :
    (l.map (fun v => v / t * 100)).sum = l.sum / t * 100 := by
  induction l with
  | nil => simp
  | cons a tl ih =>
    simp only [List.map_cons, List.sum_cons, ih]
    ring

/-- With a positive total, the computed percentages of a group sum to 100 up
to the accumulated rounding error. -/
theorem pctList_sum_near_100 {l : List ℚ} (p : ℕ) (h : 0 < l.sum) :
    |(pctList l p).sum - 100| ≤ l.length / (2 * 10 ^ p) := by
  have hne : l.sum ≠ 0 := ne_of_gt h
  have hexact : (l.map (fun v => v / l.sum * 100)).sum = 100 := by
    rw [sum_map_div_mul, div_mul_eq_mul_div, mul_comm, mul_div_assoc,
      div_self hne, mul_one]
  have hb := list_abs_sum_sub_le l (fun v => pyRound (v / l.sum * 100) p)
    (fun v => v / l.sum * 100) (1 / (2 * 10 ^ p))
    (fun x _ => pyRound_sub_abs (x / l.sum * 100) p)
  rw [hexact] at hb
  rw [pctList_pos_eq p h]
  calc |(l.map (fun v => pyRound (v / l.sum * 100) p)).sum - 100| ≤
        l.length * (1 / (2 * 10 ^ p)) := hb
    _ = l.length / (2 * 10 ^ p) := by ring

/-- Round half to even is the identity on integers. -/
theorem roundHalfEven_intCast (m : ℤ) : roundHalfEven (m : ℚ) = m := by
  unfold roundHalfEven
  rw [Int.floor_intCast]
  rw [if_pos]
  rw [sub_self]
  norm_num

/-- A value that is a whole number of tenths is fixed by one-decimal
rounding. -/
theorem pyRound_tenth {x : ℚ} {m : ℤ} (h : x * 10 = (m : ℚ)) :
    pyRound x 1 = x := by
  unfold pyRound
  have h10 : ((10 : ℚ) ^ 1) = 10 := by norm_num
  rw [h10, h, roundHalfEven_intCast, ← h]
  field_simp

/-- Looking a key up in an appended association list falls through to the
second list exactly when the first has no entry for it. -/
theorem jrecord_lookup_append (k : String) (l1 l2 : JRecord) :
    (l1 ++ l2).lookup k =
      match l1.lookup k with
      | some v => some v
      | none => l2.lookup k := by
  induction l1 with
  | nil => simp [List.lookup]
  | cons a t ih =>
    rcases a with ⟨ka, va⟩
    simp only [List.cons_append, List.lookup]
    rcases hk : (k == ka) with _ | _ <;> simp [hk, ih]

/-- Looking up any key in a constant-zero association list yields zero after
the default. -/
theorem lookup_map_zero_getD (ks : List String) (k : String) :
    ((ks.map (fun s => (s, JValue.num 0))).lookup k).getD (JValue.num 0) =
      JValue.num 0 := by
  induction ks with
  | nil => rfl
  | cons a t ih =>
    simp only [List.map_cons, List.lookup]
    rcases hk : (k == a) with _ | _ <;> simp [hk, ih]

/-- Extending a record with zeros for absent keys does not change any
`get_value` lookup. -/
theorem get_value_extendZero (d : JRecord) (ks : List String) (k : String) :
    get_value (extendZero d ks) k = get_value d k := by
  unfold get_value extendZero
  rw [jrecord_lookup_append]
  rcases h : d.lookup k with _ | v
  · simp only [h]
    rcases hf : ((ks.filter (fun k => (d.lookup k).isNone)).map
        (fun k => (k, JValue.num 0))).lookup k with _ | w
    · simp [hf]
    · have := lookup_map_zero_getD (ks.filter (fun k => (d.lookup k).isNone)) k
      rw [hf] at this
      simp at this
      simp [hf, this]
  · simp [h]

namespace DataLoader

/-- Inversion of a successful `data_loader` normalization: the record is
exactly the assembled percentages and rounded values of the extracted
groups. -/
theorem process_inv_dl {d : JRecord} {n : String} {rec : ScenarioRecord}
    (h : process_aggregation_data d n = some rec) :
    ∃ iv bv pv dv fv uv tv, ∃ tu fh fvh : ℚ,
      groupValues (get_value d) incomeKeys = some iv ∧
      groupValues (get_value d) bedroomKeys = some bv ∧
      groupValues (get_value d) parkingKeys = some pv ∧
      groupValues (get_value d) densityKeys = some dv ∧
      groupValues (get_value d) farKeys = some fv ∧
      groupValues (get_value d) unitTypeKeys = some uv ∧
      groupValues (get_value d) tcacKeys = some tv ∧
      toNum (get_value d "totalUnitsSum") = some tu ∧
      toNum (get_value d "unitsFireHazardHighSum") = some fh ∧
      toNum (get_value d "unitsFireHazardVeryHighSum") = some fvh ∧
      rec = { scenario_name := n
              income_values := iv.map (fun v => pyRound v 1)
              income_pct := pctList iv 0
              bedroom_values := bv.map (fun v => pyRound v 1)
              bedroom_pct := pctList bv 0
              parking_values := pv.map (fun v => pyRound v 1)
              parking_pct := pctList pv 0
              density_values := dv.map (fun v => pyRound v 1)
              density_pct := pctList dv 1
              far_values := fv.map (fun v => pyRound v 1)
              far_pct := pctList fv 1
              unit_type_values := uv.map (fun v => pyRound v 1)
              unit_type_pct := pctList uv 1
              tcac_values := tv.map (fun v => pyRound v 1)
              tcac_pct := pctList tv 1
              fire_risk_values :=
                [tu - fh - fvh, fh, fvh].map (fun v => pyRound v 1)
              fire_risk_pct := pctList [tu - fh - fvh, fh, fvh] 1
              location_data :=
                locationKeys.map (fun p => (p.1, get_value d p.2))
              total_units := tu
              affordable_units := get_value d "affordableUnitsSum"
              net_units := get_value d "netUnitsSum" } := by
  simp only [process_aggregation_data, compute] at h
  split at h
  next iv bv pv dv fv uv tv tu fh fvh hiv hbv hpv hdv hfv huv htv htu hfh hfvh =>
    refine ⟨iv, bv, pv, dv, fv, uv, tv, tu, fh, fvh,
      hiv, hbv, hpv, hdv, hfv, huv, htv, htu, hfh, hfvh, ?_⟩
    exact (Option.some.inj h).symm
  next => exact absurd h (by simp)

end DataLoader

namespace StreamlitApp

/-- Inversion of a successful `streamlit_app` normalization. -/
theorem process_inv_sa {d : JRecord} {n : String} {rec : ScenarioRecord}
    (h : process_aggregation_data d n = some rec) :
    ∃ iv bv pv dv fv uv tv, ∃ tu fh fvh : ℚ,
      groupValues (get_value d) incomeKeys = some iv ∧
      groupValues (get_value d) bedroomKeys = some bv ∧
      groupValues (get_value d) parkingKeys = some pv ∧
      groupValues (get_value d) densityKeys = some dv ∧
      groupValues (get_value d) farKeys = some fv ∧
      groupValues (get_value d) unitTypeKeys = some uv ∧
      groupValues (get_value d) tcacKeys = some tv ∧
      toNum (get_value d "totalUnitsSum") = some tu ∧
      toNum (get_value d "unitsFhszHighSum") = some fh ∧
      toNum (get_value d "unitsFhszVeryhighSum") = some fvh ∧
      rec = { scenario_name := n
              income_values := iv.map (fun v => pyRound v 1)
              income_pct := pctList iv 0
              bedroom_values := bv.map (fun v => pyRound v 1)
              bedroom_pct := pctList bv 0
              parking_values := pv.map (fun v => pyRound v 1)
              parking_pct := pctList pv 0
              density_values := dv.map (fun v => pyRound v 1)
              density_pct := pctList dv 1
              far_values := fv.map (fun v => pyRound v 1)
              far_pct := pctList fv 1
              unit_type_values := uv.map (fun v => pyRound v 1)
              unit_type_pct := pctList uv 1
              tcac_values := tv.map (fun v => pyRound v 1)
              tcac_pct := pctList tv 1
              fire_risk_values :=
                [tu - fh - fvh, fh, fvh].map (fun v => pyRound v 1)
              fire_risk_pct := pctList [tu - fh - fvh, fh, fvh] 1
              location_data :=
                locationKeys.map (fun p => (p.1, get_value d p.2))
              total_units := tu
              affordable_units := get_value d "affordableUnitsSum" } := by
  simp only [process_aggregation_data, compute] at h
  split at h
  next iv bv pv dv fv uv tv tu fh fvh hiv hbv hpv hdv hfv huv htv htu hfh hfvh =>
    refine ⟨iv, bv, pv, dv, fv, uv, tv, tu, fh, fvh,
      hiv, hbv, hpv, hdv, hfv, huv, htv, htu, hfh, hfvh, ?_⟩
    exact (Option.some.inj h).symm
  next => exact absurd h (by simp)

end StreamlitApp

/-- A single threaded read returns the value of `get_value` and leaves the
dictionary unchanged. -/
theorem DataLoader.getvS_eq (d : JRecord) (k : String) :
    DataLoader.getvS d k = (get_value d k, d) := rfl

/-- Threaded reads of a key list return the `get_value` map and leave the
dictionary unchanged. -/
theorem DataLoader.getvList_eq (d : JRecord) (ks : List String) :
    DataLoader.getvList d ks = (ks.map (get_value d), d) := by
  induction ks with
  | nil => rfl
  | cons k t ih => simp [DataLoader.getvList, DataLoader.getvS_eq, ih]

/-- Threaded reads of the location pairs return the passthrough mapping and
leave the dictionary unchanged. -/
theorem DataLoader.getvPairs_eq (d : JRecord) (ps : List (String × String)) :
    DataLoader.getvPairs d ps = (ps.map (fun p => (p.1, get_value d p.2)), d) := by
  induction ps with
  | nil => rfl
  | cons p t ih => simp [DataLoader.getvPairs, DataLoader.getvS_eq, ih]

/-- One loop-body step appends the step's successful record, if any. -/
theorem StreamlitApp.buildBody_eq (resp : String → Option (List JRecord))
    (acc : List StreamlitApp.ScenarioRecord) (p : ℕ × String) :
    StreamlitApp.buildBody resp acc p =
      acc ++ (StreamlitApp.step resp p).toList := by
  unfold StreamlitApp.buildBody StreamlitApp.step
  rcases hr : resp p.2 with _ | dl
  · simp [hr]
  · rcases dl with _ | ⟨raw, rest⟩
    · simp
    · rcases hp : StreamlitApp.process_aggregation_data raw
          (StreamlitApp.scenarioName p.1) with _ | rec <;>
        simp [hp, Option.bind, List.head?]

/-- Folding the loop body collects exactly the successful steps, in order. -/
theorem StreamlitApp.foldl_buildBody (resp : String → Option (List JRecord))
    (l : List (ℕ × String)) (acc : List StreamlitApp.ScenarioRecord) :
    l.foldl (StreamlitApp.buildBody resp) acc =
      acc ++ l.filterMap (StreamlitApp.step resp) := by
  induction l generalizing acc with
  | nil => simp
  | cons p t ih =>
    rw [List.foldl_cons, ih, StreamlitApp.buildBody_eq, List.filterMap_cons]
    rcases hs : StreamlitApp.step resp p with _ | rec <;> simp [hs]

/-- The collection builder is the in-order filter of the per-scenario
outcomes. -/
theorem StreamlitApp.buildAllData_eq (simulation_ids : List String)
    (resp : String → Option (List JRecord)) :
    StreamlitApp.buildAllData simulation_ids resp =
      simulation_ids.enum.filterMap (StreamlitApp.step resp) := by
  unfold StreamlitApp.buildAllData
  rw [StreamlitApp.foldl_buildBody]
  simp

/-- Any `filterMap` restricts to the sublist of inputs on which the function
succeeds. -/
theorem filterMap_sublist_exists {α β : Type} (l : List α) (f : α → Option β) :
    ∃ l', List.Sublist l' l ∧ (∀ a ∈ l', (f a).isSome) ∧ l.filterMap f = l'.filterMap f := by
  induction l with
  | nil => exact ⟨[], List.Sublist.refl [], by simp, rfl⟩
  | cons a t ih =>
    obtain ⟨l', hsub, hsome, heq⟩ := ih
    rcases ha : f a with _ | b
    · exact ⟨l', hsub.cons a, hsome, by rw [List.filterMap_cons_none ha]; exact heq⟩
    · refine ⟨a :: l', hsub.cons₂ a, ?_, ?_⟩
      · intro x hx
        rcases hx with _ | hx
        · simp [ha]
        · exact hsome x (by assumption)
      · rw [List.filterMap_cons_some ha, List.filterMap_cons_some ha, heq]

/-- C10: `process_aggregation_data` never mutates its input raw record: in
the state-passing embedding, where every dictionary access threads the dict
through a read operation, the dictionary after the call holds exactly the
same key-value pairs as before, and the result is that of the pure
function. -/
theorem claim10_no_mutation : ∀ (d : JRecord) (n : String),
    DataLoader.processST d n = (DataLoader.process_aggregation_data d n, d) := by
  intro d n
  simp [DataLoader.processST, DataLoader.getvList_eq, DataLoader.getvPairs_eq,
    DataLoader.getvS_eq, DataLoader.process_aggregation_data]

/-- C7: normalizing the raw record with a 30/70 market income split, 100
total units and 0 affordable units yields income values and percentages
`[30, 70, 0, 0, 0, 0]`. -/
theorem claim7_income_example :
    (StreamlitApp.process_aggregation_data dC7 "s").map
      (fun r => (r.income_values, r.income_pct)) =
      some ([30, 70, 0, 0, 0, 0], [30, 70, 0, 0, 0, 0]) := by
  with_unfolding_all rfl

/-- C4 counterexample: with total units 10 and fractional hazard counts
0.04 and 0.04, the normalized record stores fire-risk values
`[9.9, 0, 0]`, so its none bucket equals neither `total_units` minus the
raw hazard counts nor `total_units` minus the stored ones, and the stored
buckets do not sum to `total_units`. -/
theorem claim4_counterexample :
    (DataLoader.process_aggregation_data dC4 "s").map
      (fun r => (r.fire_risk_values, r.total_units)) =
      some ([99 / 10, 0, 0], 10) ∧
    ¬((99 : ℚ) / 10 = 10 - 1 / 25 - 1 / 25) ∧
    ¬((99 : ℚ) / 10 = 10 - 0 - 0) ∧
    ¬((99 : ℚ) / 10 + 0 + 0 = 10) := by
  refine ⟨by with_unfolding_all rfl, by norm_num, by norm_num, by norm_num⟩

/-- C6 counterexample: on a raw record with units by type 1 SF and 2 TH the
normalizer stores unit-type percentages rounded to 1 decimal
(`[33.3, 66.7, 0, 0]`), not to 0 decimals as the claim would have it. -/
theorem claim6_counterexample :
    (DataLoader.process_aggregation_data dC6 "s").map
      (fun r => r.unit_type_pct) = some (pctList [1, 2, 0, 0] 1) ∧
    pctList [1, 2, 0, 0] 1 = [333 / 10, 667 / 10, 0, 0] ∧
    pctList [1, 2, 0, 0] 1 ≠ pctList [1, 2, 0, 0] 0 := by
  refine ⟨by with_unfolding_all rfl, by with_unfolding_all rfl,
    of_decide_eq_true (by with_unfolding_all rfl)⟩

/-- C3: a key absent from the raw record deterministically contributes the
value 0, so normalizing (with either normalizer) a record with missing
keys gives the same result as normalizing the record extended with those
keys mapped to 0. -/
theorem claim3_missing_keys : ∀ (d : JRecord) (ks : List String) (n : String),
    (∀ k, d.lookup k = none → get_value d k = JValue.num 0) ∧
    DataLoader.process_aggregation_data (extendZero d ks) n =
      DataLoader.process_aggregation_data d n ∧
    StreamlitApp.process_aggregation_data (extendZero d ks) n =
      StreamlitApp.process_aggregation_data d n := by
  intro d ks n
  have hg : get_value (extendZero d ks) = get_value d :=
    funext (get_value_extendZero d ks)
  refine ⟨fun k hk => by simp [get_value, hk], ?_, ?_⟩
  · simp only [DataLoader.process_aggregation_data]
    rw [hg]
  · simp only [StreamlitApp.process_aggregation_data]
    rw [hg]

/-- C3 witness: the lookup default and the extension equality at a concrete
record and key. -/
theorem claim3_witness :
    get_value [] "missing" = JValue.num 0 ∧
    DataLoader.process_aggregation_data (extendZero [] ["missing"]) "w" =
      DataLoader.process_aggregation_data [] "w" := by
  have h := claim3_missing_keys [] ["missing"] "w"
  exact ⟨h.1 "missing" rfl, h.2.1⟩

/-- C8: the collection builder returns successfully normalized records in
the caller-supplied request order — it is the in-order filter of the
per-scenario outcomes over a sublist of the enumerated request, every
element of which succeeded — and on a request of two ids of which only the
first is in the response it returns exactly the one record for it. -/
theorem claim8_collection :
    (∀ (ids : List String) (resp : String → Option (List JRecord)),
      ∃ sub, List.Sublist sub ids.enum ∧
        (∀ p ∈ sub, (StreamlitApp.step resp p).isSome) ∧
        StreamlitApp.buildAllData ids resp =
          sub.filterMap (StreamlitApp.step resp)) ∧
    StreamlitApp.buildAllData ["simA", "simB"] c8resp =
      [zeroRecSA "Scenario 1"] ∧
    (zeroRecSA "Scenario 1").scenario_name = "Scenario 1" := by
  refine ⟨?_, by with_unfolding_all rfl, rfl⟩
  intro ids resp
  obtain ⟨sub, hsub, hsome, heq⟩ :=
    filterMap_sublist_exists ids.enum (StreamlitApp.step resp)
  exact ⟨sub, hsub, hsome, by rw [StreamlitApp.buildAllData_eq, heq]⟩

/-- C9: an exception during normalization is caught and yields `None` for
that scenario (the embedded normalizer returns `none` on the malformed
record, for any scenario name), the caller keeps exactly the non-`None`
outcomes, and with a malformed first scenario and a well-formed second the
collection holds exactly the second's record. -/
theorem claim9_error_handling :
    (∀ n : String, StreamlitApp.process_aggregation_data c9bad n = none) ∧
    (∀ (ids : List String) (resp : String → Option (List JRecord)),
      StreamlitApp.buildAllData ids resp =
        (ids.enum.map (StreamlitApp.step resp)).filterMap id) ∧
    StreamlitApp.buildAllData ["simA", "simB"] c9resp =
      [zeroRecSA "Scenario 2"] ∧
    (zeroRecSA "Scenario 2").scenario_name = "Scenario 2" := by
  refine ⟨fun n => rfl, ?_, by with_unfolding_all rfl, rfl⟩
  intro ids resp
  rw [StreamlitApp.buildAllData_eq, List.filterMap_map]
  simp [Function.comp]

/-- The percentage list of a group has the group's length. -/
theorem pctList_length (l : List ℚ) (p : ℕ) : (pctList l p).length = l.length := by
  simp [pctList]

/-- A successfully extracted group has as many values as it has keys. -/
theorem groupValues_length {g : String → JValue} {keys : List String}
    {vals : List ℚ} (h : groupValues g keys = some vals) :
    vals.length = keys.length := by
  have := toNums_length h
  simpa using this

/-- If an extracted group's values sum to zero, its percentage list is all
zeros (stated against a second extraction of the same group). -/
theorem pct_zero_of_extract {g : String → JValue} {keys : List String}
    {iv vals : List ℚ} {p : ℕ}
    (hiv : groupValues g keys = some iv)
    (hg : groupValues g keys = some vals) (hs : vals.sum = 0) :
    pctList iv p = List.replicate vals.length 0 := by
  rw [hiv] at hg
  cases Option.some.inj hg
  exact pctList_sum_zero p hs

/-- The two percentage-sum facts for one extracted group: near 100 for a
positive total, and exactly 0 when all raw values are 0. -/
theorem pct_sum_conj {g : String → JValue} {keys : List String}
    {iv vals : List ℚ} {p : ℕ}
    (hiv : groupValues g keys = some iv)
    (hg : groupValues g keys = some vals) :
    (0 < vals.sum → |(pctList iv p).sum - 100| ≤ vals.length / (2 * 10 ^ p)) ∧
    ((∀ v ∈ vals, v = 0) → (pctList iv p).sum = 0) := by
  rw [hiv] at hg
  cases Option.some.inj hg
  constructor
  · intro hpos
    exact pctList_sum_near_100 p hpos
  · intro hz
    rw [pctList_sum_zero p (List.sum_eq_zero hz)]
    simp

/-- C1: for both normalizers and every category group, a zero group total
makes every percentage of that group exactly zero — the guard
`total > 0` is applied independently per group and no division is
reached on a zero total. -/
theorem claim1_zero_total (d : JRecord) (n : String) :
    (∀ rec, DataLoader.process_aggregation_data d n = some rec →
      (∀ vals, groupValues (get_value d) DataLoader.incomeKeys = some vals →
        vals.sum = 0 → rec.income_pct = List.replicate vals.length 0) ∧
      (∀ vals, groupValues (get_value d) DataLoader.bedroomKeys = some vals →
        vals.sum = 0 → rec.bedroom_pct = List.replicate vals.length 0) ∧
      (∀ vals, groupValues (get_value d) DataLoader.parkingKeys = some vals →
        vals.sum = 0 → rec.parking_pct = List.replicate vals.length 0) ∧
      (∀ vals, groupValues (get_value d) DataLoader.densityKeys = some vals →
        vals.sum = 0 → rec.density_pct = List.replicate vals.length 0) ∧
      (∀ vals, groupValues (get_value d) DataLoader.farKeys = some vals →
        vals.sum = 0 → rec.far_pct = List.replicate vals.length 0) ∧
      (∀ vals, groupValues (get_value d) DataLoader.unitTypeKeys = some vals →
        vals.sum = 0 → rec.unit_type_pct = List.replicate vals.length 0) ∧
      (∀ vals, groupValues (get_value d) DataLoader.tcacKeys = some vals →
        vals.sum = 0 → rec.tcac_pct = List.replicate vals.length 0) ∧
      (∀ tu fh fvh : ℚ, toNum (get_value d "totalUnitsSum") = some tu →
        toNum (get_value d "unitsFireHazardHighSum") = some fh →
        toNum (get_value d "unitsFireHazardVeryHighSum") = some fvh →
        ([tu - fh - fvh, fh, fvh] : List ℚ).sum = 0 →
        rec.fire_risk_pct = List.replicate 3 0)) ∧
    (∀ rec, StreamlitApp.process_aggregation_data d n = some rec →
      (∀ vals, groupValues (get_value d) StreamlitApp.incomeKeys = some vals →
        vals.sum = 0 → rec.income_pct = List.replicate vals.length 0) ∧
      (∀ vals, groupValues (get_value d) StreamlitApp.bedroomKeys = some vals →
        vals.sum = 0 → rec.bedroom_pct = List.replicate vals.length 0) ∧
      (∀ vals, groupValues (get_value d) StreamlitApp.parkingKeys = some vals →
        vals.sum = 0 → rec.parking_pct = List.replicate vals.length 0) ∧
      (∀ vals, groupValues (get_value d) StreamlitApp.densityKeys = some vals →
        vals.sum = 0 → rec.density_pct = List.replicate vals.length 0) ∧
      (∀ vals, groupValues (get_value d) StreamlitApp.farKeys = some vals →
        vals.sum = 0 → rec.far_pct = List.replicate vals.length 0) ∧
      (∀ vals, groupValues (get_value d) StreamlitApp.unitTypeKeys = some vals →
        vals.sum = 0 → rec.unit_type_pct = List.replicate vals.length 0) ∧
      (∀ vals, groupValues (get_value d) StreamlitApp.tcacKeys = some vals →
        vals.sum = 0 → rec.tcac_pct = List.replicate vals.length 0) ∧
      (∀ tu fh fvh : ℚ, toNum (get_value d "totalUnitsSum") = some tu →
        toNum (get_value d "unitsFhszHighSum") = some fh →
        toNum (get_value d "unitsFhszVeryhighSum") = some fvh →
        ([tu - fh - fvh, fh, fvh] : List ℚ).sum = 0 →
        rec.fire_risk_pct = List.replicate 3 0)) := by
  constructor
  · intro rec h
    obtain ⟨iv, bv, pv, dv, fv, uv, tv, tu, fh, fvh,
      hiv, hbv, hpv, hdv, hfv, huv, htv, htu, hfh, hfvh, hrec⟩ :=
      DataLoader.process_inv_dl h
    subst hrec
    refine ⟨fun vals hg hs => pct_zero_of_extract hiv hg hs,
      fun vals hg hs => pct_zero_of_extract hbv hg hs,
      fun vals hg hs => pct_zero_of_extract hpv hg hs,
      fun vals hg hs => pct_zero_of_extract hdv hg hs,
      fun vals hg hs => pct_zero_of_extract hfv hg hs,
      fun vals hg hs => pct_zero_of_extract huv hg hs,
      fun vals hg hs => pct_zero_of_extract htv hg hs, ?_⟩
    intro tu' fh' fvh' htu' hfh' hfvh' hs
    rw [htu] at htu'
    rw [hfh] at hfh'
    rw [hfvh] at hfvh'
    cases Option.some.inj htu'
    cases Option.some.inj hfh'
    cases Option.some.inj hfvh'
    exact pctList_sum_zero 1 hs
  · intro rec h
    obtain ⟨iv, bv, pv, dv, fv, uv, tv, tu, fh, fvh,
      hiv, hbv, hpv, hdv, hfv, huv, htv, htu, hfh, hfvh, hrec⟩ :=
      StreamlitApp.process_inv_sa h
    subst hrec
    refine ⟨fun vals hg hs => pct_zero_of_extract hiv hg hs,
      fun vals hg hs => pct_zero_of_extract hbv hg hs,
      fun vals hg hs => pct_zero_of_extract hpv hg hs,
      fun vals hg hs => pct_zero_of_extract hdv hg hs,
      fun vals hg hs => pct_zero_of_extract hfv hg hs,
      fun vals hg hs => pct_zero_of_extract huv hg hs,
      fun vals hg hs => pct_zero_of_extract htv hg hs, ?_⟩
    intro tu' fh' fvh' htu' hfh' hfvh' hs
    rw [htu] at htu'
    rw [hfh] at hfh'
    rw [hfvh] at hfvh'
    cases Option.some.inj htu'
    cases Option.some.inj hfh'
    cases Option.some.inj hfvh'
    exact pctList_sum_zero 1 hs

/-- C1 witness: on the empty raw record every group total is 0 and the
stored percentages are all zero, for both normalizers. -/
theorem claim1_witness :
    (zeroRecDL "w").income_pct = List.replicate 15 0 ∧
    (zeroRecSA "w").fire_risk_pct = List.replicate 3 0 := by
  have h := claim1_zero_total [] "w"
  constructor
  · have h1 := (h.1 (zeroRecDL "w") (by with_unfolding_all rfl)).1
      (List.replicate 15 0) (by with_unfolding_all rfl) (by simp)
    simpa using h1
  · exact (h.2 (zeroRecSA "w") (by with_unfolding_all rfl)).2.2.2.2.2.2.2
      0 0 0 rfl rfl rfl (by norm_num)

/-- C2: for every category group of a successful `data_loader`
normalization, a positive group total puts the percentage sum within the
accumulated rounding tolerance of 100, and all-zero raw values make the
percentage sum exactly 0. -/
theorem claim2_pct_sum (d : JRecord) (n : String)
    (rec : DataLoader.ScenarioRecord)
    (h : DataLoader.process_aggregation_data d n = some rec) :
    (∀ vals, groupValues (get_value d) DataLoader.incomeKeys = some vals →
      (0 < vals.sum →
        |rec.income_pct.sum - 100| ≤ vals.length / (2 * 10 ^ (0 : ℕ))) ∧
      ((∀ v ∈ vals, v = 0) → rec.income_pct.sum = 0)) ∧
    (∀ vals, groupValues (get_value d) DataLoader.bedroomKeys = some vals →
      (0 < vals.sum →
        |rec.bedroom_pct.sum - 100| ≤ vals.length / (2 * 10 ^ (0 : ℕ))) ∧
      ((∀ v ∈ vals, v = 0) → rec.bedroom_pct.sum = 0)) ∧
    (∀ vals, groupValues (get_value d) DataLoader.parkingKeys = some vals →
      (0 < vals.sum →
        |rec.parking_pct.sum - 100| ≤ vals.length / (2 * 10 ^ (0 : ℕ))) ∧
      ((∀ v ∈ vals, v = 0) → rec.parking_pct.sum = 0)) ∧
    (∀ vals, groupValues (get_value d) DataLoader.densityKeys = some vals →
      (0 < vals.sum →
        |rec.density_pct.sum - 100| ≤ vals.length / (2 * 10 ^ (1 : ℕ))) ∧
      ((∀ v ∈ vals, v = 0) → rec.density_pct.sum = 0)) ∧
    (∀ vals, groupValues (get_value d) DataLoader.farKeys = some vals →
      (0 < vals.sum →
        |rec.far_pct.sum - 100| ≤ vals.length / (2 * 10 ^ (1 : ℕ))) ∧
      ((∀ v ∈ vals, v = 0) → rec.far_pct.sum = 0)) ∧
    (∀ vals, groupValues (get_value d) DataLoader.unitTypeKeys = some vals →
      (0 < vals.sum →
        |rec.unit_type_pct.sum - 100| ≤ vals.length / (2 * 10 ^ (1 : ℕ))) ∧
      ((∀ v ∈ vals, v = 0) → rec.unit_type_pct.sum = 0)) ∧
    (∀ vals, groupValues (get_value d) DataLoader.tcacKeys = some vals →
      (0 < vals.sum →
        |rec.tcac_pct.sum - 100| ≤ vals.length / (2 * 10 ^ (1 : ℕ))) ∧
      ((∀ v ∈ vals, v = 0) → rec.tcac_pct.sum = 0)) ∧
    (∀ tu fh fvh : ℚ, toNum (get_value d "totalUnitsSum") = some tu →
      toNum (get_value d "unitsFireHazardHighSum") = some fh →
      toNum (get_value d "unitsFireHazardVeryHighSum") = some fvh →
      (0 < ([tu - fh - fvh, fh, fvh] : List ℚ).sum →
        |rec.fire_risk_pct.sum - 100| ≤
          ([tu - fh - fvh, fh, fvh] : List ℚ).length / (2 * 10 ^ (1 : ℕ))) ∧
      ((∀ v ∈ ([tu - fh - fvh, fh, fvh] : List ℚ), v = 0) →
        rec.fire_risk_pct.sum = 0)) := by
  obtain ⟨iv, bv, pv, dv, fv, uv, tv, tu, fh, fvh,
    hiv, hbv, hpv, hdv, hfv, huv, htv, htu, hfh, hfvh, hrec⟩ :=
    DataLoader.process_inv_dl h
  subst hrec
  refine ⟨fun vals hg => pct_sum_conj hiv hg,
    fun vals hg => pct_sum_conj hbv hg,
    fun vals hg => pct_sum_conj hpv hg,
    fun vals hg => pct_sum_conj hdv hg,
    fun vals hg => pct_sum_conj hfv hg,
    fun vals hg => pct_sum_conj huv hg,
    fun vals hg => pct_sum_conj htv hg, ?_⟩
  intro tu' fh' fvh' htu' hfh' hfvh'
  rw [htu] at htu'
  rw [hfh] at hfh'
  rw [hfvh] at hfvh'
  cases Option.some.inj htu'
  cases Option.some.inj hfh'
  cases Option.some.inj hfvh'
  constructor
  · intro hpos
    exact pctList_sum_near_100 1 hpos
  · intro hz
    rw [pctList_sum_zero 1 (List.sum_eq_zero hz)]
    simp

/-- C2 witness: with a 30/70 split the income percentages sum to 100 within
the 15-bucket tolerance, and the all-zero bedroom group sums to 0. -/
theorem claim2_witness :
    |recC2.income_pct.sum - 100| ≤ 15 / 2 ∧ recC2.bedroom_pct.sum = 0 := by
  have h := claim2_pct_sum dC2 "w" recC2 (by with_unfolding_all rfl)
  constructor
  · have h1 := (h.1 [30, 70, 0, 0, 0, 0, 0, 0, 0, 0, 0, 0, 0, 0, 0]
      (by with_unfolding_all rfl)).1
      (by norm_num [List.sum_cons, List.sum_nil])
    have he : (([30, 70, 0, 0, 0, 0, 0, 0, 0, 0, 0, 0, 0, 0, 0] :
        List ℚ).length : ℚ) / (2 * 10 ^ (0 : ℕ)) = 15 / 2 := by norm_num
    rw [he] at h1
    exact h1
  · exact (h.2.1 (List.replicate 8 0) (by with_unfolding_all rfl)).2 (by simp)

/-- C5: in every successfully normalized streamlit_app record, each category
group's values and percentages have the length of that group's fixed
label list; in every data_loader record each group's values and
percentages agree in length (its 15-bucket label list is not part of the
sources). -/
theorem claim5_lengths (d : JRecord) (n : String) :
    (∀ rec, StreamlitApp.process_aggregation_data d n = some rec →
      (rec.income_values.length = StreamlitApp.income_brackets.length ∧
        rec.income_pct.length = StreamlitApp.income_brackets.length) ∧
      (rec.bedroom_values.length = StreamlitApp.bedroom_counts.length ∧
        rec.bedroom_pct.length = StreamlitApp.bedroom_counts.length) ∧
      (rec.parking_values.length = StreamlitApp.parking_types.length ∧
        rec.parking_pct.length = StreamlitApp.parking_types.length) ∧
      (rec.density_values.length = StreamlitApp.density_labels.length ∧
        rec.density_pct.length = StreamlitApp.density_labels.length) ∧
      (rec.far_values.length = StreamlitApp.far_labels.length ∧
        rec.far_pct.length = StreamlitApp.far_labels.length) ∧
      (rec.unit_type_values.length = StreamlitApp.unit_types.length ∧
        rec.unit_type_pct.length = StreamlitApp.unit_types.length) ∧
      (rec.tcac_values.length = StreamlitApp.tcac_levels.length ∧
        rec.tcac_pct.length = StreamlitApp.tcac_levels.length) ∧
      (rec.fire_risk_values.length = StreamlitApp.fire_risk_levels.length ∧
        rec.fire_risk_pct.length = StreamlitApp.fire_risk_levels.length)) ∧
    (∀ rec, DataLoader.process_aggregation_data d n = some rec →
      rec.income_values.length = rec.income_pct.length ∧
      rec.bedroom_values.length = rec.bedroom_pct.length ∧
      rec.parking_values.length = rec.parking_pct.length ∧
      rec.density_values.length = rec.density_pct.length ∧
      rec.far_values.length = rec.far_pct.length ∧
      rec.unit_type_values.length = rec.unit_type_pct.length ∧
      rec.tcac_values.length = rec.tcac_pct.length ∧
      rec.fire_risk_values.length = rec.fire_risk_pct.length) := by
  constructor
  · intro rec h
    obtain ⟨iv, bv, pv, dv, fv, uv, tv, tu, fh, fvh,
      hiv, hbv, hpv, hdv, hfv, huv, htv, htu, hfh, hfvh, hrec⟩ :=
      StreamlitApp.process_inv_sa h
    subst hrec
    refine ⟨⟨?_, ?_⟩, ⟨?_, ?_⟩, ⟨?_, ?_⟩, ⟨?_, ?_⟩, ⟨?_, ?_⟩, ⟨?_, ?_⟩,
      ⟨?_, ?_⟩, ⟨?_, ?_⟩⟩ <;>
      simp [pctList_length, groupValues_length hiv, groupValues_length hbv,
        groupValues_length hpv, groupValues_length hdv, groupValues_length hfv,
        groupValues_length huv, groupValues_length htv,
        StreamlitApp.incomeKeys, StreamlitApp.bedroomKeys,
        StreamlitApp.parkingKeys, StreamlitApp.densityKeys,
        StreamlitApp.farKeys, StreamlitApp.unitTypeKeys, StreamlitApp.tcacKeys,
        StreamlitApp.income_brackets, StreamlitApp.bedroom_counts,
        StreamlitApp.parking_types, StreamlitApp.density_labels,
        StreamlitApp.far_labels, StreamlitApp.unit_types,
        StreamlitApp.tcac_levels, StreamlitApp.fire_risk_levels]
  · intro rec h
    obtain ⟨iv, bv, pv, dv, fv, uv, tv, tu, fh, fvh,
      hiv, hbv, hpv, hdv, hfv, huv, htv, htu, hfh, hfvh, hrec⟩ :=
      DataLoader.process_inv_dl h
    subst hrec
    refine ⟨?_, ?_, ?_, ?_, ?_, ?_, ?_, ?_⟩ <;> simp [pctList_length]

/-- C5 witness: the length invariants at the empty raw record. -/
theorem claim5_witness :
    (zeroRecSA "w").income_values.length =
      StreamlitApp.income_brackets.length ∧
    (zeroRecSA "w").fire_risk_pct.length =
      StreamlitApp.fire_risk_levels.length ∧
    (zeroRecDL "w").income_values.length = (zeroRecDL "w").income_pct.length := by
  have h := claim5_lengths [] "w"
  have hsa := h.1 (zeroRecSA "w") (by with_unfolding_all rfl)
  have hdl := h.2 (zeroRecDL "w") (by with_unfolding_all rfl)
  exact ⟨hsa.1.1, hsa.2.2.2.2.2.2.2.2, hdl.1⟩

/-- C4 amended: in both normalizers the derived fire-risk values are the
one-decimal roundings of `[total_units - high - very_high, high,
very_high]` — an unclamped subtraction, negative when hazard counts
exceed total units — whose pre-rounding entries sum to `total_units`
exactly; the stored entries sum to the stored `total_units` whenever the
three raw quantities are whole numbers of tenths (in particular for
integer counts), but not in general (see the counterexample). -/
theorem claim4_amended (d : JRecord) (n : String) :
    (∀ (rec : DataLoader.ScenarioRecord) (tu fh fvh : ℚ),
      DataLoader.process_aggregation_data d n = some rec →
      toNum (get_value d "totalUnitsSum") = some tu →
      toNum (get_value d "unitsFireHazardHighSum") = some fh →
      toNum (get_value d "unitsFireHazardVeryHighSum") = some fvh →
      rec.fire_risk_values =
        [pyRound (tu - fh - fvh) 1, pyRound fh 1, pyRound fvh 1] ∧
      (tu - fh - fvh) + fh + fvh = tu ∧
      rec.total_units = tu ∧
      ((∃ m : ℤ, tu * 10 = (m : ℚ)) → (∃ m : ℤ, fh * 10 = (m : ℚ)) →
        (∃ m : ℤ, fvh * 10 = (m : ℚ)) →
        rec.fire_risk_values.sum = rec.total_units)) ∧
    (∀ (rec : StreamlitApp.ScenarioRecord) (tu fh fvh : ℚ),
      StreamlitApp.process_aggregation_data d n = some rec →
      toNum (get_value d "totalUnitsSum") = some tu →
      toNum (get_value d "unitsFhszHighSum") = some fh →
      toNum (get_value d "unitsFhszVeryhighSum") = some fvh →
      rec.fire_risk_values =
        [pyRound (tu - fh - fvh) 1, pyRound fh 1, pyRound fvh 1] ∧
      (tu - fh - fvh) + fh + fvh = tu ∧
      rec.total_units = tu ∧
      ((∃ m : ℤ, tu * 10 = (m : ℚ)) → (∃ m : ℤ, fh * 10 = (m : ℚ)) →
        (∃ m : ℤ, fvh * 10 = (m : ℚ)) →
        rec.fire_risk_values.sum = rec.total_units)) := by
  constructor
  · intro rec tu' fh' fvh' h htu' hfh' hfvh'
    obtain ⟨iv, bv, pv, dv, fv, uv, tv, tu, fh, fvh,
      hiv, hbv, hpv, hdv, hfv, huv, htv, htu, hfh, hfvh, hrec⟩ :=
      DataLoader.process_inv_dl h
    subst hrec
    rw [htu] at htu'
    rw [hfh] at hfh'
    rw [hfvh] at hfvh'
    cases Option.some.inj htu'
    cases Option.some.inj hfh'
    cases Option.some.inj hfvh'
    refine ⟨rfl, by ring, rfl, ?_⟩
    rintro ⟨m1, hm1⟩ ⟨m2, hm2⟩ ⟨m3, hm3⟩
    have hd : (tu' - fh' - fvh') * 10 = ((m1 - m2 - m3 : ℤ) : ℚ) := by
      push_cast
      linarith
    show ([tu' - fh' - fvh', fh', fvh'].map (fun v => pyRound v 1)).sum = tu'
    simp only [List.map_cons, List.map_nil, List.sum_cons, List.sum_nil]
    rw [pyRound_tenth hd, pyRound_tenth hm2, pyRound_tenth hm3]
    ring
  · intro rec tu' fh' fvh' h htu' hfh' hfvh'
    obtain ⟨iv, bv, pv, dv, fv, uv, tv, tu, fh, fvh,
      hiv, hbv, hpv, hdv, hfv, huv, htv, htu, hfh, hfvh, hrec⟩ :=
      StreamlitApp.process_inv_sa h
    subst hrec
    rw [htu] at htu'
    rw [hfh] at hfh'
    rw [hfvh] at hfvh'
    cases Option.some.inj htu'
    cases Option.some.inj hfh'
    cases Option.some.inj hfvh'
    refine ⟨rfl, by ring, rfl, ?_⟩
    rintro ⟨m1, hm1⟩ ⟨m2, hm2⟩ ⟨m3, hm3⟩
    have hd : (tu' - fh' - fvh') * 10 = ((m1 - m2 - m3 : ℤ) : ℚ) := by
      push_cast
      linarith
    show ([tu' - fh' - fvh', fh', fvh'].map (fun v => pyRound v 1)).sum = tu'
    simp only [List.map_cons, List.map_nil, List.sum_cons, List.sum_nil]
    rw [pyRound_tenth hd, pyRound_tenth hm2, pyRound_tenth hm3]
    ring

/-- C4 witness: the specification's 50/10/5 fire-risk example, for both
normalizers: the stored values are the rounded subtraction list and sum
to the stored total. -/
theorem claim4_witness :
    recC4dl.fire_risk_values =
      [pyRound ((50 : ℚ) - 10 - 5) 1, pyRound (10 : ℚ) 1, pyRound (5 : ℚ) 1] ∧
    recC4dl.fire_risk_values.sum = recC4dl.total_units ∧
    recC4sa.fire_risk_values =
      [pyRound ((50 : ℚ) - 10 - 5) 1, pyRound (10 : ℚ) 1, pyRound (5 : ℚ) 1] ∧
    recC4sa.fire_risk_values.sum = recC4sa.total_units := by
  have hdl := (claim4_amended dC4dl "w").1 recC4dl 50 10 5
    (by with_unfolding_all rfl) rfl rfl rfl
  have hsa := (claim4_amended dC4sa "w").2 recC4sa 50 10 5
    (by with_unfolding_all rfl) rfl rfl rfl
  refine ⟨hdl.1, ?_, hsa.1, ?_⟩
  · exact hdl.2.2.2 ⟨500, by norm_num⟩ ⟨100, by norm_num⟩ ⟨50, by norm_num⟩
  · exact hsa.2.2.2 ⟨500, by norm_num⟩ ⟨100, by norm_num⟩ ⟨50, by norm_num⟩

/-- C6 amended: in every successful `data_loader` normalization the stored
raw values of every group are rounded to 1 decimal place, and the
percentages are rounded to 0 decimals for income, bedroom and parking and
to 1 decimal for exactly the density, far, unit-type, tcac and fire-risk
groups (the unit-type group also carries 1 decimal, contrary to the
original claim). -/
theorem claim6_amended (d : JRecord) (n : String)
    (rec : DataLoader.ScenarioRecord)
    (iv bv pv dv fv uv tv : List ℚ) (tu fh fvh : ℚ)
    (h : DataLoader.process_aggregation_data d n = some rec)
    (hiv : groupValues (get_value d) DataLoader.incomeKeys = some iv)
    (hbv : groupValues (get_value d) DataLoader.bedroomKeys = some bv)
    (hpv : groupValues (get_value d) DataLoader.parkingKeys = some pv)
    (hdv : groupValues (get_value d) DataLoader.densityKeys = some dv)
    (hfv : groupValues (get_value d) DataLoader.farKeys = some fv)
    (huv : groupValues (get_value d) DataLoader.unitTypeKeys = some uv)
    (htv : groupValues (get_value d) DataLoader.tcacKeys = some tv)
    (htu : toNum (get_value d "totalUnitsSum") = some tu)
    (hfh : toNum (get_value d "unitsFireHazardHighSum") = some fh)
    (hfvh : toNum (get_value d "unitsFireHazardVeryHighSum") = some fvh) :
    (rec.income_values = iv.map (fun v => pyRound v 1) ∧
      rec.income_pct = pctList iv 0) ∧
    (rec.bedroom_values = bv.map (fun v => pyRound v 1) ∧
      rec.bedroom_pct = pctList bv 0) ∧
    (rec.parking_values = pv.map (fun v => pyRound v 1) ∧
      rec.parking_pct = pctList pv 0) ∧
    (rec.density_values = dv.map (fun v => pyRound v 1) ∧
      rec.density_pct = pctList dv 1) ∧
    (rec.far_values = fv.map (fun v => pyRound v 1) ∧
      rec.far_pct = pctList fv 1) ∧
    (rec.unit_type_values = uv.map (fun v => pyRound v 1) ∧
      rec.unit_type_pct = pctList uv 1) ∧
    (rec.tcac_values = tv.map (fun v => pyRound v 1) ∧
      rec.tcac_pct = pctList tv 1) ∧
    (rec.fire_risk_values =
        [tu - fh - fvh, fh, fvh].map (fun v => pyRound v 1) ∧
      rec.fire_risk_pct = pctList [tu - fh - fvh, fh, fvh] 1) := by
  obtain ⟨iv', bv', pv', dv', fv', uv', tv', tu', fh', fvh',
    hiv', hbv', hpv', hdv', hfv', huv', htv', htu', hfh', hfvh', hrec⟩ :=
    DataLoader.process_inv_dl h
  subst hrec
  rw [hiv'] at hiv
  rw [hbv'] at hbv
  rw [hpv'] at hpv
  rw [hdv'] at hdv
  rw [hfv'] at hfv
  rw [huv'] at huv
  rw [htv'] at htv
  rw [htu'] at htu
  rw [hfh'] at hfh
  rw [hfvh'] at hfvh
  cases Option.some.inj hiv
  cases Option.some.inj hbv
  cases Option.some.inj hpv
  cases Option.some.inj hdv
  cases Option.some.inj hfv
  cases Option.some.inj huv
  cases Option.some.inj htv
  cases Option.some.inj htu
  cases Option.some.inj hfh
  cases Option.some.inj hfvh
  exact ⟨⟨rfl, rfl⟩, ⟨rfl, rfl⟩, ⟨rfl, rfl⟩, ⟨rfl, rfl⟩, ⟨rfl, rfl⟩,
    ⟨rfl, rfl⟩, ⟨rfl, rfl⟩, ⟨rfl, rfl⟩⟩

/-- C6 witness: the 1 SF / 2 TH record, where the unit-type group visibly
uses one decimal digit. -/
theorem claim6_witness :
    recC6.unit_type_values = ([1, 2, 0, 0] : List ℚ).map (fun v => pyRound v 1) ∧
    recC6.unit_type_pct = pctList [1, 2, 0, 0] 1 := by
  have h := claim6_amended dC6 "s" recC6 (List.replicate 15 0)
    (List.replicate 8 0) (List.replicate 5 0) (List.replicate 5 0)
    (List.replicate 6 0) [1, 2, 0, 0] (List.replicate 5 0) 0 0 0
    (by with_unfolding_all rfl) (by with_unfolding_all rfl)
    (by with_unfolding_all rfl) (by with_unfolding_all rfl)
    (by with_unfolding_all rfl) (by with_unfolding_all rfl)
    (by with_unfolding_all rfl) (by with_unfolding_all rfl)
    rfl rfl rfl
  exact h.2.2.2.2.2.1
